import Mathlib

/-!
Verification of the manta control plane (Firecracker microVM sandbox
orchestrator) against its natural-language specification.

The Go source is shallowly embedded: pure decision logic becomes Lean
functions over explicit inputs; effectful sequences become event traces;
fallible operations return Except/Option; machine integers become Nat/Int.
Each definition is translated from the corresponding Go function; where the
repository ships only the callees of some orchestration code (the newest
server constructor and destroy orchestration are not in the source tree),
the missing part is modelled from the spec and marked as such in its doc
comment.
-/

namespace Manta

/-! ## Agent RPC framing (internal/agentrpc, WriteMessage / ReadMessage)

Messages are framed as a 4-byte big-endian payload length followed by that
many bytes of JSON. Payloads are modelled as byte lists (`List Nat`); the
JSON encode/decode on both sides is a deterministic function of the bytes,
so byte-exactness of the framing layer is the round-trip property. -/

/-- MaxMessageBytes caps a single framed JSON payload (8 MiB, from
agentrpc: 8 << 20). -/
def MaxMessageBytes : Nat := 8388608

/-- Big-endian 4-byte encoding of a length, as in binary.BigEndian.PutUint32. -/
def encodeBE32 (n : Nat) : List Nat :=
  [n / 16777216 % 256, n / 65536 % 256, n / 256 % 256, n % 256]

/-- Big-endian 4-byte decoding, as in binary.BigEndian.Uint32. -/
def decodeBE32 (b0 b1 b2 b3 : Nat) : Nat :=
  ((b0 * 256 + b1) * 256 + b2) * 256 + b3

/-- WriteMessage: refuse payloads above MaxMessageBytes, else emit the
4-byte big-endian length header followed by the payload bytes. -/
def WriteMessage (raw : List Nat) : Option (List Nat) :=
  if raw.length > MaxMessageBytes then none
  else some (encodeBE32 raw.length ++ raw)

/-- ReadMessage: read the 4-byte header, reject length 0 or above
MaxMessageBytes, then read exactly that many payload bytes; returns the
payload and the remaining stream. -/
def ReadMessage (stream : List Nat) : Option (List Nat × List Nat) :=
  match stream with
  | b0 :: b1 :: b2 :: b3 :: rest =>
    let n := decodeBE32 b0 b1 b2 b3
    if n = 0 ∨ n > MaxMessageBytes then none
    else if rest.length < n then none
    else some (rest.take n, rest.drop n)
  | _ => none

theorem decodeBE32_encodeBE32 (n : Nat) (h : n < 4294967296) :
    decodeBE32 (n / 16777216 % 256) (n / 65536 % 256) (n / 256 % 256) (n % 256) = n := by
  unfold decodeBE32
  omega

theorem ReadMessage_frame (raw rest : List Nat) (h1 : raw.length ≠ 0)
    (h2 : raw.length ≤ MaxMessageBytes) :
    ReadMessage (encodeBE32 raw.length ++ (raw ++ rest)) = some (raw, rest) := by
  have hlt : raw.length < 4294967296 := by
    have : MaxMessageBytes = 8388608 := rfl
    omega
  have hdec := decodeBE32_encodeBE32 raw.length hlt
  unfold ReadMessage encodeBE32
  simp only [List.cons_append, List.nil_append] at *
  rw [hdec]
  have hne : ¬(raw.length = 0 ∨ raw.length > MaxMessageBytes) := by omega
  rw [if_neg hne]
  have hlen : ¬((raw ++ rest).length < raw.length) := by
    simp [List.length_append]
  rw [if_neg hlen]
  rw [List.take_left, List.drop_left]

/-- C5: for every message payload whose encoding is non-empty and at most
8 MiB, WriteMessage produces a frame from which ReadMessage recovers the
exact payload bytes (hence the same logical JSON value) with the rest of
the stream untouched; ReadMessage rejects every frame whose 4-byte
big-endian length prefix is 0 or exceeds 8 MiB; and WriteMessage refuses
to emit a payload larger than 8 MiB. -/
theorem writeMessage_readMessage_contract :
    (∀ raw rest : List Nat, raw.length ≠ 0 → raw.length ≤ MaxMessageBytes →
      WriteMessage raw = some (encodeBE32 raw.length ++ raw) ∧
      ReadMessage (encodeBE32 raw.length ++ raw ++ rest) = some (raw, rest)) ∧
    (∀ b0 b1 b2 b3 : Nat, ∀ rest : List Nat,
      decodeBE32 b0 b1 b2 b3 = 0 ∨ decodeBE32 b0 b1 b2 b3 > MaxMessageBytes →
      ReadMessage (b0 :: b1 :: b2 :: b3 :: rest) = none) ∧
    (∀ raw : List Nat, raw.length > MaxMessageBytes → WriteMessage raw = none) := by
  refine ⟨?_, ?_, ?_⟩
  · intro raw rest h1 h2
    constructor
    · unfold WriteMessage
      rw [if_neg (by omega)]
    · rw [List.append_assoc]
      exact ReadMessage_frame raw rest h1 h2
  · intro b0 b1 b2 b3 rest h
    unfold ReadMessage
    simp only
    rw [if_pos h]
  · intro raw h
    unfold WriteMessage
    rw [if_pos h]

/-- Witness for C5 at concrete inputs: payload 0x2a round-trips, a zero
length prefix is rejected, and a 9 MiB payload is refused. -/
theorem writeMessage_readMessage_contract_witness :
    WriteMessage [42] = some [0, 0, 0, 1, 42] ∧
    ReadMessage [0, 0, 0, 1, 42] = some ([42], []) ∧
    ReadMessage [0, 0, 0, 0] = none ∧
    WriteMessage (List.replicate 9437184 0) = none := by
  have h1 := writeMessage_readMessage_contract.1 [42] [] (by decide) (by decide)
  have h2 := writeMessage_readMessage_contract.2.1 0 0 0 0 [] (Or.inl (by decide))
  have h3 := writeMessage_readMessage_contract.2.2 (List.replicate 9437184 0)
    (by rw [List.length_replicate]; decide)
  refine ⟨?_, ?_, h2, h3⟩
  · simpa [encodeBE32] using h1.1
  · have := h1.2
    simpa [encodeBE32] using this

/-! ## Snapshot ID validation (normalizeSnapshotID, snapshot.go)

The regex ^[A-Za-z0-9][A-Za-z0-9._-]\x7b0,127\x7d$ is embedded as a direct
predicate over the string's characters. strings.TrimSpace is embedded as a
structural function on the character list so that it evaluates. -/

/-- strings.TrimSpace: drop whitespace from both ends. -/
def strTrim (s : String) : String :=
  String.mk (((s.toList.dropWhile Char.isWhitespace).reverse.dropWhile
    Char.isWhitespace).reverse)

/-- A character allowed after the first position of a snapshot ID. -/
def isSnapshotIDTailChar (c : Char) : Bool :=
  c.isAlphanum || c = '.' || c = '_' || c = '-'

/-- Whether a string matches the snapshot ID pattern: a leading ASCII
alphanumeric followed by at most 127 characters from the tail class. -/
def matchesSnapshotIDPattern (s : String) : Bool :=
  match s.toList with
  | [] => false
  | c :: rest => c.isAlphanum && decide (rest.length ≤ 127) && rest.all isSnapshotIDTailChar

/-- normalizeSnapshotID: trim, reject empty, reject pattern mismatch. -/
def normalizeSnapshotID (raw : String) : Except String String :=
  let id := strTrim raw
  if id = "" then .error "snapshot_id is required"
  else if ¬ matchesSnapshotIDPattern id then .error "invalid snapshot_id"
  else .ok id

/-! ## User snapshot handlers (snapshot.go, newest revision)

The source tree carries two revisions of the user snapshot handlers; the
newer one (the second package main section of snapshot.go, with
normalizeSnapshotID and the missing-lineage check) supersedes the copy in
user_snapshot.go and is the one embedded here. Filesystem state (metadata
lookup, creation success) and the sandbox registry are explicit inputs. -/

structure UserSnapshotMeta where
  snapshotId : String
  name : String
  createdAt : String
  stateFile : String
  memFile : String
  diskFile : String
  lineageId : String
  sourceSandboxId : String
  sourceRootfsPath : String
deriving DecidableEq, Repr

inductive RestoreRes where
  | badRequest (msg : String)
  | notFound (msg : String)
  | conflict (msg : String)
  | internalError (msg : String)
  | okRestored (sandboxId : String)
deriving DecidableEq, Repr

/-- handleSnapshotRestore: normalize the ID (400 on failure), load meta
(404 on failure), then when the configured base lineage is non-empty
require a non-empty, equal meta lineage (409 otherwise), and only then run
the restore pipeline and register the new sandbox. Arguments: the raw
request ID, the metadata store, the configured base lineage, the ID the
new sandbox would get, whether the restore pipeline succeeds, and the
registry. Returns the HTTP result, the updated registry, and whether the
restore pipeline was invoked. -/
def handleSnapshotRestore (rawId : String)
    (metaStore : String → Option UserSnapshotMeta)
    (baseLineage : String) (newId : String) (createOk : Bool)
    (reg : List String) : RestoreRes × List String × Bool :=
  match normalizeSnapshotID rawId with
  | .error e => (.badRequest e, reg, false)
  | .ok sid =>
    match metaStore sid with
    | none => (.notFound "read snapshot metadata", reg, false)
    | some meta =>
      let currentLineage := strTrim baseLineage
      let metaLineage := strTrim meta.lineageId
      let proceed : RestoreRes × List String × Bool :=
        if createOk then (.okRestored newId, newId :: reg, true)
        else (.internalError "create sandbox from user snapshot", reg, true)
      if currentLineage ≠ "" then
        if metaLineage = "" then
          (.conflict "snapshot meta missing lineage id", reg, false)
        else if metaLineage ≠ currentLineage then
          (.conflict ("snapshot lineage mismatch (snapshot=" ++ metaLineage ++
            " current=" ++ currentLineage ++ ")"), reg, false)
        else proceed
      else proceed

inductive DeleteRes where
  | badRequest (msg : String)
  | internalError (msg : String)
  | okStatus
deriving DecidableEq, Repr

/-- handleSnapshotDelete: normalize the ID (400 on failure) before any
filesystem operation; only a normalized ID reaches os.RemoveAll. Returns
the HTTP result and whether a filesystem removal was attempted. -/
def handleSnapshotDelete (rawId : String) (removeOk : Bool) :
    DeleteRes × Bool :=
  match normalizeSnapshotID rawId with
  | .error e => (.badRequest e, false)
  | .ok _ => if removeOk then (.okStatus, true) else (.internalError "delete snapshot", true)

/-- C1: for every snapshot restore request whose loaded user-snapshot meta
carries a lineage that, after trimming, differs from the control plane's
non-empty trimmed base lineage (including the case of an empty meta
lineage), the handler answers 409 Conflict with a lineage error, the
registry is unchanged and the restore pipeline is never invoked. -/
theorem handleSnapshotRestore_lineage_mismatch
    (rawId sid : String) (metaStore : String → Option UserSnapshotMeta)
    (meta : UserSnapshotMeta) (baseLineage newId : String) (createOk : Bool)
    (reg : List String)
    (hid : normalizeSnapshotID rawId = .ok sid)
    (hmeta : metaStore sid = some meta)
    (hbase : strTrim baseLineage ≠ "")
    (hne : strTrim meta.lineageId ≠ strTrim baseLineage) :
    handleSnapshotRestore rawId metaStore baseLineage newId createOk reg =
      (.conflict (if strTrim meta.lineageId = "" then "snapshot meta missing lineage id"
        else "snapshot lineage mismatch (snapshot=" ++ strTrim meta.lineageId ++
          " current=" ++ strTrim baseLineage ++ ")"),
       reg, false) := by
  unfold handleSnapshotRestore
  rw [hid]
  simp only [hmeta]
  rw [if_pos hbase]
  by_cases hml : strTrim meta.lineageId = ""
  · rw [if_pos hml, if_pos hml]
  · rw [if_neg hml, if_pos hne, if_neg hml]

/-- Witness for C1: a stored snapshot with lineage aaa against base
lineage bbb is refused with 409 and the registry stays empty. -/
theorem handleSnapshotRestore_lineage_mismatch_witness :
    handleSnapshotRestore "us-1"
      (fun s => if s = "us-1" then
        some ⟨"us-1", "", "", "s", "m", "d", "aaa", "sb-1", "r"⟩ else none)
      "bbb" "sb-2" true [] =
    (.conflict "snapshot lineage mismatch (snapshot=aaa current=bbb)", [], false) := by
  have h := handleSnapshotRestore_lineage_mismatch "us-1" "us-1"
    (fun s => if s = "us-1" then
      some ⟨"us-1", "", "", "s", "m", "d", "aaa", "sb-1", "r"⟩ else none)
    ⟨"us-1", "", "", "s", "m", "d", "aaa", "sb-1", "r"⟩
    "bbb" "sb-2" true [] (by rfl) (by rfl) (by decide) (by decide)
  rw [h]
  decide

/-- C2 counterexample: the empty snapshot ID fails the pattern, yet the
delete handler answers 400 with error message snapshot_id is required,
not invalid snapshot_id as the claim states for every pattern-failing ID. -/
theorem handleSnapshotDelete_empty_id_message :
    matchesSnapshotIDPattern (strTrim "") = false ∧
    handleSnapshotDelete "" true = (.badRequest "snapshot_id is required", false) ∧
    DeleteRes.badRequest "snapshot_id is required" ≠
      DeleteRes.badRequest "invalid snapshot_id" := by
  decide

/-- C2 amended: every snapshot ID whose trimmed form fails the pattern is
rejected with 400 before any filesystem operation; the error message is
invalid snapshot_id whenever the trimmed ID is non-empty, and
snapshot_id is required when it is empty. -/
theorem handleSnapshotDelete_invalid_id (rawId : String) (removeOk : Bool)
    (h : matchesSnapshotIDPattern (strTrim rawId) = false) :
    (handleSnapshotDelete rawId removeOk).2 = false ∧
    (handleSnapshotDelete rawId removeOk).1 =
      .badRequest (if strTrim rawId = "" then "snapshot_id is required"
        else "invalid snapshot_id") := by
  unfold handleSnapshotDelete normalizeSnapshotID
  by_cases he : strTrim rawId = ""
  · rw [if_pos he]
    simp [he]
  · rw [if_neg he]
    rw [if_pos (by simp [h])]
    simp [he]

/-- Witness for C2 amended: deleting snapshot ID ../etc yields 400 with
error invalid snapshot_id and touches no file. -/
theorem handleSnapshotDelete_invalid_id_witness :
    matchesSnapshotIDPattern (strTrim "../etc") = false ∧
    (handleSnapshotDelete "../etc" true).1 = .badRequest "invalid snapshot_id" ∧
    (handleSnapshotDelete "../etc" true).2 = false := by
  have h := handleSnapshotDelete_invalid_id "../etc" true (by decide)
  refine ⟨by decide, ?_, h.1⟩
  rw [h.2]
  decide

/-! ## Exec request validation (handleExec in handlers.go, normalizeArgv in
cmd/agent/main.go)

The handler's cmd/argv/use_shell validation is embedded as a function from
the decoded request fields to either a validation error (written as HTTP
400 by the handler) or the resolved shell mode. -/

/-- The cmd/argv/use_shell validation switch of handleExec. Returns the
resolved use_shell flag, or the 400 error message. -/
def execValidate (cmd : String) (argv : List String) (useShell : Option Bool) :
    Except String Bool :=
  let c := strTrim cmd
  if argv ≠ [] then
    if c ≠ "" then .error "provide either cmd or argv, not both"
    else if useShell = some true then .error "use_shell=true is not valid with argv"
    else .ok false
  else if c ≠ "" then
    if useShell = some false then
      .error "use_shell=false is not valid with cmd; provide argv instead"
    else .ok true
  else .error "cmd or argv is required"

/-- The HTTP outcome of handleExec validation: some (400, msg) when the
request is rejected, none when it proceeds to the transport. -/
def handleExecValidationError (cmd : String) (argv : List String)
    (useShell : Option Bool) : Option (Nat × String) :=
  match execValidate cmd argv useShell with
  | .error e => some (400, e)
  | .ok _ => none

/-- normalizeArgv (in-guest agent): shell mode needs a non-blank cmd and
wraps it in /bin/sh -lc; no-shell mode needs a non-empty argv. -/
def normalizeArgv (useShell : Bool) (cmd : String) (argv : List String) :
    Except String (List String) :=
  let c := strTrim cmd
  if useShell then
    if c = "" then .error "use_shell set but cmd is empty"
    else .ok ["/bin/sh", "-lc", c]
  else if argv = [] then
    if c ≠ "" then .error "cmd provided without use_shell; provide argv or set use_shell"
    else .error "argv is required when not using shell"
  else .ok argv

/-- C7: handleExec accepts exactly one of cmd (non-blank after trimming)
and argv (non-empty): both provided is a 400 with error provide either cmd
or argv, not both; neither is a 400; use_shell=true with argv and
use_shell=false with cmd are each 400; and the in-guest agent's
normalizeArgv succeeds in shell mode exactly when cmd is non-blank and in
no-shell mode exactly when argv is non-empty. -/
theorem handleExec_validation_contract :
    (∀ (cmd : String) (argv : List String) (us : Option Bool),
      strTrim cmd ≠ "" → argv ≠ [] →
      handleExecValidationError cmd argv us =
        some (400, "provide either cmd or argv, not both")) ∧
    (∀ (cmd : String) (us : Option Bool), strTrim cmd = "" →
      handleExecValidationError cmd [] us = some (400, "cmd or argv is required")) ∧
    (∀ (cmd : String) (argv : List String), strTrim cmd = "" → argv ≠ [] →
      handleExecValidationError cmd argv (some true) =
        some (400, "use_shell=true is not valid with argv")) ∧
    (∀ cmd : String, strTrim cmd ≠ "" →
      handleExecValidationError cmd [] (some false) =
        some (400, "use_shell=false is not valid with cmd; provide argv instead")) ∧
    (∀ (cmd : String) (argv : List String),
      (∃ a, normalizeArgv true cmd argv = .ok a) ↔ strTrim cmd ≠ "") ∧
    (∀ (cmd : String) (argv : List String),
      (∃ a, normalizeArgv false cmd argv = .ok a) ↔ argv ≠ []) := by
  refine ⟨?_, ?_, ?_, ?_, ?_, ?_⟩
  · intro cmd argv us hc ha
    simp [handleExecValidationError, execValidate, hc, ha]
  · intro cmd us hc
    simp [handleExecValidationError, execValidate, hc]
  · intro cmd argv hc ha
    simp [handleExecValidationError, execValidate, hc, ha]
  · intro cmd hc
    simp [handleExecValidationError, execValidate, hc]
  · intro cmd argv
    constructor
    · rintro ⟨a, ha⟩ hc
      simp [normalizeArgv, hc] at ha
    · intro hc
      exact ⟨["/bin/sh", "-lc", strTrim cmd], by simp [normalizeArgv, hc]⟩
  · intro cmd argv
    constructor
    · rintro ⟨a, ha⟩ hv
      by_cases hc : strTrim cmd = "" <;> simp [normalizeArgv, hv, hc] at ha
    · intro hv
      exact ⟨argv, by simp [normalizeArgv, hv]⟩

/-- Witness for C7 at the spec's own example: cmd echo x together with
argv true is rejected with 400 provide either cmd or argv, not both; and
the agent accepts shell mode with a non-blank cmd. -/
theorem handleExec_validation_contract_witness :
    handleExecValidationError "echo x" ["true"] none =
      some (400, "provide either cmd or argv, not both") ∧
    (∃ a, normalizeArgv true "echo x" [] = .ok a) := by
  constructor
  · exact handleExec_validation_contract.1 "echo x" ["true"] none (by decide) (by decide)
  · exact (handleExec_validation_contract.2.2.2.2.1 "echo x" []).mpr (by decide)

/-! ## In-guest agent exec (runExec, cmd/agent/main.go)

runExec is embedded as a function of the request together with the
environment outcomes it branches on: pipe creation, process start, the raw
bytes each stream produces, whether the command exits before the timeout,
and the process exit code. stdout/stderr pass through io.LimitReader with
the per-stream cap. The second component records whether the agent killed
the command's process group (the timeout branch). -/

structure AgentExecRequest where
  useShell : Bool
  cmd : String
  argv : List String
  cwd : String
  env : List String
  timeoutMs : Int
  maxOutputBytes : Int
deriving DecidableEq, Repr

structure AgentExecResponse where
  exitCode : Int
  stdout : List Nat
  stderr : List Nat
  timedOut : Bool
deriving DecidableEq, Repr

/-- The per-stream output cap: req.max_output_bytes, or 1 MiB when the
field is zero or negative. -/
def execMaxOutputBytes (req : AgentExecRequest) : Nat :=
  if req.maxOutputBytes ≤ 0 then 1048576 else req.maxOutputBytes.toNat

/-- runExec: validate argv, then run the command with limited readers on
both streams; on timeout kill the process group and report exit code 124
with timed_out = true. -/
def runExec (req : AgentExecRequest) (pipesOk startOk : Bool)
    (stdoutRaw stderrRaw : List Nat) (finishedInTime : Bool)
    (processExitCode : Int) : AgentExecResponse × Bool :=
  let maxOut := execMaxOutputBytes req
  match normalizeArgv req.useShell req.cmd req.argv with
  | .error _ => ({ exitCode := 2, stdout := [], stderr := [], timedOut := false }, false)
  | .ok _ =>
    if ¬ pipesOk then
      ({ exitCode := 1, stdout := [], stderr := [], timedOut := false }, false)
    else if ¬ startOk then
      ({ exitCode := 127, stdout := [], stderr := [], timedOut := false }, false)
    else
      let so := stdoutRaw.take maxOut
      let se := stderrRaw.take maxOut
      if finishedInTime then
        ({ exitCode := processExitCode, stdout := so, stderr := se, timedOut := false }, false)
      else
        ({ exitCode := 124, stdout := so, stderr := se, timedOut := true }, true)

/-- C9: every agent exec response carries stdout and stderr of at most
max_output_bytes bytes each, where the cap is 1 MiB when the request field
is zero or negative; and whenever the timeout elapses before a started
command exits, the agent kills the whole process group and the response
has timed_out = true and exit_code = 124. -/
theorem runExec_output_cap_and_timeout
    (req : AgentExecRequest) (pipesOk startOk : Bool)
    (stdoutRaw stderrRaw : List Nat) (finishedInTime : Bool)
    (processExitCode : Int) :
    ((runExec req pipesOk startOk stdoutRaw stderrRaw finishedInTime
        processExitCode).1.stdout.length ≤ execMaxOutputBytes req ∧
     (runExec req pipesOk startOk stdoutRaw stderrRaw finishedInTime
        processExitCode).1.stderr.length ≤ execMaxOutputBytes req) ∧
    (req.maxOutputBytes ≤ 0 → execMaxOutputBytes req = 1048576) ∧
    ((∃ a, normalizeArgv req.useShell req.cmd req.argv = .ok a) →
      pipesOk = true → startOk = true → finishedInTime = false →
      (runExec req pipesOk startOk stdoutRaw stderrRaw finishedInTime
        processExitCode).1.timedOut = true ∧
      (runExec req pipesOk startOk stdoutRaw stderrRaw finishedInTime
        processExitCode).1.exitCode = 124 ∧
      (runExec req pipesOk startOk stdoutRaw stderrRaw finishedInTime
        processExitCode).2 = true) := by
  refine ⟨?_, ?_, ?_⟩
  · unfold runExec
    cases hn : normalizeArgv req.useShell req.cmd req.argv with
    | error e => simp
    | ok a =>
      by_cases hp : pipesOk = true
      · by_cases hs : startOk = true
        · by_cases hf : finishedInTime = true <;>
            simp [hp, hs, hf, List.length_take]
        · simp [hp, hs]
      · simp [hp]
  · intro h
    unfold execMaxOutputBytes
    rw [if_pos h]
  · rintro ⟨a, ha⟩ hp hs hf
    unfold runExec
    rw [ha]
    simp [hp, hs, hf]

/-- Witness for C9: a shell exec of sleep 99 with a 1-byte cap and a
timeout that elapses returns truncated output, exit code 124 and
timed_out = true, with the process group killed. -/
theorem runExec_output_cap_and_timeout_witness :
    runExec ⟨true, "sleep 99", [], "", [], 100, 1⟩ true true
        [65, 66] [67] false 0 =
      ({ exitCode := 124, stdout := [65], stderr := [67], timedOut := true }, true) ∧
    (runExec ⟨true, "sleep 99", [], "", [], 100, 1⟩ true true
        [65, 66] [67] false 0).1.stdout.length ≤
      execMaxOutputBytes ⟨true, "sleep 99", [], "", [], 100, 1⟩ := by
  have h := runExec_output_cap_and_timeout ⟨true, "sleep 99", [], "", [], 100, 1⟩
    true true [65, 66] [67] false 0
  refine ⟨?_, h.1.1⟩
  have ht := h.2.2 ⟨["/bin/sh", "-lc", strTrim "sleep 99"], by rfl⟩ rfl rfl rfl
  rfl

/-! ## Sandbox lifecycle state machine (part_006)

The per-sandbox lifecycle: Running, Closing, Closed, with an
in-flight-exec counter. The mutex-protected Go methods become pure state
transformers; the waitForExecDrain poll loop becomes a function of the
successive counter values observed before the deadline. -/

inductive SandboxState where
  | running
  | closing
  | closed
deriving DecidableEq, BEq, Repr

structure SandboxLifecycle where
  state : SandboxState
  inFlightExec : Nat
deriving DecidableEq, Repr

/-- tryStartExec: admitted only in Running, incrementing the counter;
otherwise rejected with the sandbox-is-closing error. -/
def tryStartExec (sb : SandboxLifecycle) : Except String SandboxLifecycle :=
  if sb.state ≠ .running then .error "sandbox is closing"
  else .ok { sb with inFlightExec := sb.inFlightExec + 1 }

/-- finishExec: decrement the counter when positive. -/
def finishExec (sb : SandboxLifecycle) : SandboxLifecycle :=
  if sb.inFlightExec > 0 then { sb with inFlightExec := sb.inFlightExec - 1 } else sb

/-- beginDestroy: atomically Running to Closing; false when not Running. -/
def beginDestroy (sb : SandboxLifecycle) : Bool × SandboxLifecycle :=
  if sb.state ≠ .running then (false, sb)
  else (true, { sb with state := .closing })

/-- waitForExecDrain: poll the counter until a zero is observed or the
deadline passes; the argument is the list of counter values read before
the deadline. -/
def waitForExecDrain : List Nat → Bool
  | [] => false
  | n :: rest => if n = 0 then true else waitForExecDrain rest

/-- finishDestroy: transition to Closed. -/
def finishDestroy (sb : SandboxLifecycle) : SandboxLifecycle :=
  { sb with state := .closed }

inductive DestroyStep where
  | removeFromRegistry
  | beginDestroyCall
  | drainExecWait
  | closeAgent
  | killCgroup
  | killVMMGroup
  | removeCgroupDirStep
  | releaseNetns
  | removeJailDir
  | finishDestroyCall
deriving DecidableEq, BEq, Repr

/-- Modelled from the spec: the lifecycle-aware destroy orchestration (the
caller of beginDestroy and waitForExecDrain) is not under src/, which only
holds the lifecycle callees of part_006 and an older, pre-lifecycle
handleDestroy. Per spec section 4.8 the destroy flow removes the record
from the registry, calls begin_destroy, drains exec, then closes the agent
connection, kills the cgroup, kills the VMM process group, removes the
cgroup dir, releases the netns, removes the jail dir and marks Closed; a
drain timeout is reported but not fatal. -/
def destroySteps : List DestroyStep :=
  [.removeFromRegistry, .beginDestroyCall, .drainExecWait, .closeAgent,
   .killCgroup, .killVMMGroup, .removeCgroupDirStep, .releaseNetns,
   .removeJailDir, .finishDestroyCall]

/-- Modelled from the spec (see destroySteps): the state effect of the
destroy flow — registry removal, begin_destroy, drain, teardown, Closed. -/
def destroyFlow (reg : List String) (id : String) (sb : SandboxLifecycle)
    (readings : List Nat) :
    List DestroyStep × List String × SandboxLifecycle × Bool :=
  let reg2 := reg.filter (fun x => x != id)
  let r := beginDestroy sb
  let drained := waitForExecDrain readings
  (destroySteps, reg2, finishDestroy r.2, drained)

/-- C3: destroying a Running sandbox goes through begin_destroy, which
succeeds and moves the state from Running to Closing, and the destroy flow
places the exec-drain wait after begin_destroy and before every teardown
step (agent close, VMM kill, netns release, jail removal); and every exec
admission attempted while the sandbox is not Running is rejected with the
sandbox-is-closing error instead of running the command. -/
theorem destroy_lifecycle_contract (sb : SandboxLifecycle) (reg : List String)
    (id : String) (readings : List Nat) (h : sb.state = .running) :
    ((beginDestroy sb).1 = true ∧ (beginDestroy sb).2.state = .closing) ∧
    ((destroyFlow reg id sb readings).1 = destroySteps ∧
     destroySteps.indexOf .beginDestroyCall < destroySteps.indexOf .drainExecWait ∧
     destroySteps.indexOf .drainExecWait < destroySteps.indexOf .closeAgent ∧
     destroySteps.indexOf .drainExecWait < destroySteps.indexOf .killVMMGroup ∧
     destroySteps.indexOf .drainExecWait < destroySteps.indexOf .releaseNetns ∧
     destroySteps.indexOf .drainExecWait < destroySteps.indexOf .removeJailDir) ∧
    (∀ sb2 : SandboxLifecycle, sb2.state ≠ .running →
      tryStartExec sb2 = .error "sandbox is closing") := by
  refine ⟨?_, ?_, ?_⟩
  · constructor
    · simp [beginDestroy, h]
    · simp [beginDestroy, h]
  · refine ⟨rfl, by decide, by decide, by decide, by decide, by decide⟩
  · intro sb2 h2
    simp [tryStartExec, h2]

/-- Witness for C3: a Running sandbox with one in-flight exec is moved to
Closing by begin_destroy, and exec admission on a Closing sandbox is
rejected. -/
theorem destroy_lifecycle_contract_witness :
    (beginDestroy ⟨.running, 1⟩).2.state = .closing ∧
    tryStartExec ⟨.closing, 0⟩ = .error "sandbox is closing" := by
  have h := destroy_lifecycle_contract ⟨.running, 1⟩ ["sb-1"] "sb-1" [1, 0] rfl
  exact ⟨h.1.2, h.2.2 ⟨.closing, 0⟩ (by decide)⟩

/-! ## Destroy handler and registry (handleDestroy, handlers.go)

The registry is the set of registered sandbox IDs; the Go map delete
becomes a filter. handleDestroy removes the record under the registry
mutex before any teardown work, so the removal does not depend on the
cleanup outcome. -/

inductive DestroyHTTPRes where
  | okStatus
  | internalErr (msg : String)
  | notFoundRes (msg : String)
  | badRequestRes (msg : String)
deriving DecidableEq, Repr

/-- handleDestroy: reject a blank sandbox_id, otherwise remove the ID from
the registry first and only then run cleanup; an unknown ID is a 404. -/
def handleDestroy (reg : List String) (id : String) (cleanupOk : Bool) :
    DestroyHTTPRes × List String :=
  if strTrim id = "" then (.badRequestRes "sandbox_id is required", reg)
  else
    let reg2 := reg.filter (fun x => x != id)
    if id ∈ reg then
      (if cleanupOk then .okStatus else .internalErr "cleanup sandbox", reg2)
    else (.notFoundRes "sandbox not found", reg2)

/-- The sandbox resolution step of handleExec: 400 on a blank ID, 404 when
the ID is not registered, none when the request proceeds. -/
def handleExecResolve (reg : List String) (id : String) : Option (Nat × String) :=
  if strTrim id = "" then some (400, "sandbox_id is required")
  else if id ∈ reg then none
  else some (404, "sandbox not found")

/-- C10: destroying a registered sandbox removes its ID from the registry
regardless of whether cleanup succeeds (the registry after destroy does
not depend on the cleanup outcome), so a subsequent destroy returns 404
sandbox not found and a subsequent exec resolves to 404 sandbox not
found. -/
theorem handleDestroy_unregisters_first (reg : List String) (id : String)
    (cleanupOk : Bool) (h1 : strTrim id ≠ "") (h2 : id ∈ reg) :
    id ∉ (handleDestroy reg id cleanupOk).2 ∧
    (handleDestroy reg id cleanupOk).2 = (handleDestroy reg id (!cleanupOk)).2 ∧
    (∀ b2 : Bool, (handleDestroy (handleDestroy reg id cleanupOk).2 id b2).1 =
      .notFoundRes "sandbox not found") ∧
    handleExecResolve (handleDestroy reg id cleanupOk).2 id =
      some (404, "sandbox not found") := by
  have hreg : (handleDestroy reg id cleanupOk).2 = reg.filter (fun x => x != id) := by
    unfold handleDestroy
    rw [if_neg h1]
    simp [h2]
  have hnotin : id ∉ reg.filter (fun x => x != id) := by
    intro hmem
    have := (List.mem_filter.mp hmem).2
    simp at this
  refine ⟨?_, ?_, ?_, ?_⟩
  · rw [hreg]; exact hnotin
  · unfold handleDestroy
    rw [if_neg h1, if_neg h1]
    simp [h2]
  · intro b2
    rw [hreg]
    unfold handleDestroy
    rw [if_neg h1]
    simp [hnotin]
  · rw [hreg]
    unfold handleExecResolve
    rw [if_neg h1]
    simp [hnotin]

/-- Witness for C10: destroying sb-1 with failing cleanup still removes it
from the registry and a second destroy answers 404. -/
theorem handleDestroy_unregisters_first_witness :
    "sb-1" ∉ (handleDestroy ["sb-1"] "sb-1" false).2 ∧
    (handleDestroy (handleDestroy ["sb-1"] "sb-1" false).2 "sb-1" true).1 =
      .notFoundRes "sandbox not found" := by
  have h := handleDestroy_unregisters_first ["sb-1"] "sb-1" false
    (by decide) (by decide)
  exact ⟨h.1, h.2.2.1 true⟩

/-! ## Golden bundle startup validation (ensureSnapshot, snapshot.go and
diagnostics.go)

Both revisions of ensureSnapshot decide between returning the existing
bundle and rebuilding it purely from the existence of state.snap,
mem.snap and the base disk; the source comment says assume valid, and
meta.json is never read. The on-disk state is made explicit: the three
existence flags, the parsed content meta.json would yield, and the
configured base lineage. -/

structure GoldenMeta where
  version : Nat
  lineageId : String
  baseRootfsPath : String
  createdAt : String
deriving DecidableEq, Repr

inductive EnsureAction where
  | assumeValid
  | rebuild
deriving DecidableEq, BEq, Repr

/-- ensureSnapshot's decision: if the snapshot files exist, assume valid;
otherwise rebuild. The metadata content and current lineage are inputs the
source never consults. -/
def ensureSnapshot (stateExists memExists baseDiskExists : Bool)
    (meta : Option GoldenMeta) (currentLineage : String) : EnsureAction :=
  let _ := meta
  let _ := currentLineage
  if stateExists && memExists && baseDiskExists then .assumeValid else .rebuild

inductive GoldenEv where
  | mkdirBase
  | copyBaseDisk
  | setupNetnsEv
  | writeVMConfigEv
  | startGoldenVM
  | waitAgentEv
  | pauseGoldenVM
  | removeOldSnapFiles
  | createFullSnapshotEv
  | killGoldenVM
deriving DecidableEq, BEq, Repr

/-- The effect trace of ensureSnapshot: nothing is touched when the files
exist, otherwise the golden bundle is built once (boot, pause, one full
snapshot creation, kill). -/
def ensureSnapshotRun (stateExists memExists baseDiskExists : Bool) :
    List GoldenEv × EnsureAction :=
  if stateExists && memExists && baseDiskExists then ([], .assumeValid)
  else ([.mkdirBase, .copyBaseDisk, .setupNetnsEv, .writeVMConfigEv,
    .startGoldenVM, .waitAgentEv, .pauseGoldenVM, .removeOldSnapFiles,
    .createFullSnapshotEv, .killGoldenVM], .rebuild)

/-- C4 counterexample: with all golden files present but meta.json
carrying version 2 and a lineage that does not match the current base,
startup does not rebuild the bundle — it assumes the bundle valid without
any file operation, contradicting the claimed version and lineage
validation. -/
theorem ensureSnapshot_ignores_meta_counterexample :
    ensureSnapshot true true true (some ⟨2, "aaa", "p", "t"⟩) "bbb" =
      .assumeValid ∧
    EnsureAction.assumeValid ≠ EnsureAction.rebuild ∧
    (ensureSnapshotRun true true true).1 = [] := by
  decide

/-- C4 amended: startup golden-bundle handling checks only the existence
of state.snap, mem.snap and the base disk — the decision is independent of
the metadata content and of the current lineage; when all three exist no
golden-bundle file is mutated, and when any is missing the bundle is
rebuilt from scratch with exactly one full-snapshot creation. -/
theorem ensureSnapshot_existence_only (e1 e2 e3 : Bool)
    (meta : Option GoldenMeta) (cur : String) :
    (∀ (meta2 : Option GoldenMeta) (cur2 : String),
      ensureSnapshot e1 e2 e3 meta cur = ensureSnapshot e1 e2 e3 meta2 cur2) ∧
    ((e1 && e2 && e3) = true →
      ensureSnapshot e1 e2 e3 meta cur = .assumeValid ∧
      (ensureSnapshotRun e1 e2 e3).1 = []) ∧
    ((e1 && e2 && e3) = false →
      ensureSnapshot e1 e2 e3 meta cur = .rebuild ∧
      (ensureSnapshotRun e1 e2 e3).1.count .createFullSnapshotEv = 1) := by
  refine ⟨fun meta2 cur2 => rfl, ?_, ?_⟩
  · intro h
    unfold ensureSnapshot ensureSnapshotRun
    rw [h]
    exact ⟨rfl, rfl⟩
  · intro h
    unfold ensureSnapshot ensureSnapshotRun
    rw [h]
    exact ⟨rfl, rfl⟩

/-- Witness for C4 amended: all files present leaves the bundle untouched;
a missing mem.snap triggers one rebuild. -/
theorem ensureSnapshot_existence_only_witness :
    ensureSnapshot true true true none "x" = .assumeValid ∧
    ensureSnapshot true false true none "x" = .rebuild ∧
    (ensureSnapshotRun true false true).1.count .createFullSnapshotEv = 1 := by
  have h1 := (ensureSnapshot_existence_only true true true none "x").2.1 rfl
  have h2 := (ensureSnapshot_existence_only true false true none "x").2.2 rfl
  exact ⟨h1.1, h2.1, h2.2⟩

/-! ## Netns acquisition (netns_alloc.go, netns_util.go)

The pool provisions slots for subnet indices 1..N at Init; acquireNetns
prefers the pool (10 ms acquire) and on exhaustion falls back to an
on-demand netns keyed by the atomically incremented subnet counter. The
counter's initial value is set by the server constructor, which is not in
the source tree and is modelled from the spec. -/

structure NetnsCfg where
  netnsName : String
  subnet : Nat
  pooled : Bool
deriving DecidableEq, Repr

/-- netnsNameForSandbox: manta-id, truncated to 63 characters, with a
fallback for blank IDs. -/
def netnsNameForSandbox (id : String) : String :=
  let t := strTrim id
  if t = "" then "manta-unknown"
  else
    let name := "manta-" ++ t
    if name.length > 63 then String.mk (name.toList.take 63) else name

/-- The subnet indices owned by the pool after Init: 1..=N. -/
def poolSubnets (n : Nat) : List Nat := List.range' 1 n

/-- acquireNetns: use the pool slot when Acquire returns one; on pool
exhaustion fall back to an on-demand netns whose subnet index is the
incremented counter. Returns the acquired config and the updated
counter. -/
def acquireNetns (id : String) (poolResult : Option NetnsCfg)
    (nextSubnet : Nat) : NetnsCfg × Nat :=
  match poolResult with
  | some nc => (nc, nextSubnet)
  | none =>
    let subnet := nextSubnet + 1
    ({ netnsName := netnsNameForSandbox id, subnet := subnet, pooled := false },
     subnet)

/-- Modelled from the spec: the server constructor that initializes the
on-demand subnet counter is not under src/ (only acquireNetns and the pool
code are); per spec section 4.4 the monotonic counter starts past the
pooled range 1..N. -/
def initialNextSubnet (poolSize : Nat) : Nat := poolSize

/-- The subnet indices handed out by k successive on-demand acquisitions
starting from a given counter value. -/
def onDemandSubnets (next : Nat) : Nat → List Nat
  | 0 => []
  | k + 1 =>
    let r := acquireNetns "sb" none next
    r.1.subnet :: onDemandSubnets r.2 k

theorem onDemandSubnets_gt (k next : Nat) :
    ∀ s ∈ onDemandSubnets next k, next < s := by
  induction k generalizing next with
  | zero => intro s hs; simp [onDemandSubnets] at hs
  | succ k ih =>
    intro s hs
    simp only [onDemandSubnets, acquireNetns, List.mem_cons] at hs
    rcases hs with h | h
    · omega
    · have := ih (next + 1) s h
      omega

/-- C6: pool exhaustion is a soft error — the fallback always yields a
non-pooled netns config with the next counter value as its subnet index
(acquisition cannot fail merely because the pool timed out), a pool hit
returns the slot unchanged, and every subnet index handed out on demand
after a counter initialized past the pooled range 1..N differs from every
pool slot's subnet index. -/
theorem acquireNetns_exhaustion_soft (numPool k : Nat) :
    (∀ (id : String) (next : Nat),
      (acquireNetns id none next).1.pooled = false ∧
      (acquireNetns id none next).1.subnet = next + 1 ∧
      (acquireNetns id none next).2 = next + 1) ∧
    (∀ (id : String) (nc : NetnsCfg) (next : Nat),
      acquireNetns id (some nc) next = (nc, next)) ∧
    (∀ s ∈ onDemandSubnets (initialNextSubnet numPool) k,
      ∀ p ∈ poolSubnets numPool, p ≠ s) := by
  refine ⟨fun id next => ⟨rfl, rfl, rfl⟩, fun id nc next => rfl, ?_⟩
  intro s hs p hp
  have h1 : numPool < s := onDemandSubnets_gt k (initialNextSubnet numPool) s hs
  have h2 : p < 1 + numPool := (List.mem_range'_1.mp hp).2
  omega

/-- Witness for C6: with a pool of 2 slots, the first two on-demand
subnets are 3 and 4, distinct from both pool subnets 1 and 2. -/
theorem acquireNetns_exhaustion_soft_witness :
    onDemandSubnets (initialNextSubnet 2) 2 = [3, 4] ∧
    poolSubnets 2 = [1, 2] ∧
    (∀ p ∈ poolSubnets 2, p ≠ 3) := by
  refine ⟨by decide, by decide, ?_⟩
  intro p hp
  exact (acquireNetns_exhaustion_soft 2 2).2.2 3 (by decide) p hp

/-! ## User snapshot creation flow (createUserSnapshotFromSandbox,
snapshot.go)

The sequence of effects is made explicit as an event trace, with one
boolean per fallible step. The deferred resume (resumeNeeded) fires on
every failure after the pause succeeded. -/

inductive SnapEv where
  | closeAgentConn
  | mkdirSnapDir
  | pauseVMEv
  | removeOldArtifacts
  | createSnapshotEv
  | materializeDiskEv
  | writeMetaTmp
  | renameMeta
  | resumeVMEv
deriving DecidableEq, BEq, Repr

/-- createUserSnapshotFromSandbox: close any persistent agent connection,
make the bundle dir, pause the VM, clear stale artifacts, create the full
snapshot, materialize the disk, write meta to a temp file and rename it
into place, then resume; a deferred resume fires on any failure after a
successful pause (including after a failed final resume). -/
def createUserSnapshotFromSandbox (mkdirOk pauseOk createOk materializeOk
    writeTmpOk renameOk resumeOk : Bool) : List SnapEv × Option String :=
  if ¬ mkdirOk then
    ([.closeAgentConn, .mkdirSnapDir], some "create snapshot dir")
  else if ¬ pauseOk then
    ([.closeAgentConn, .mkdirSnapDir, .pauseVMEv], some "pause vm")
  else if ¬ createOk then
    ([.closeAgentConn, .mkdirSnapDir, .pauseVMEv, .removeOldArtifacts,
      .createSnapshotEv, .resumeVMEv], some "create user snapshot")
  else if ¬ materializeOk then
    ([.closeAgentConn, .mkdirSnapDir, .pauseVMEv, .removeOldArtifacts,
      .createSnapshotEv, .materializeDiskEv, .resumeVMEv],
     some "persist snapshot disk")
  else if ¬ writeTmpOk then
    ([.closeAgentConn, .mkdirSnapDir, .pauseVMEv, .removeOldArtifacts,
      .createSnapshotEv, .materializeDiskEv, .writeMetaTmp, .resumeVMEv],
     some "write snapshot meta")
  else if ¬ renameOk then
    ([.closeAgentConn, .mkdirSnapDir, .pauseVMEv, .removeOldArtifacts,
      .createSnapshotEv, .materializeDiskEv, .writeMetaTmp, .renameMeta,
      .resumeVMEv], some "persist snapshot meta")
  else if ¬ resumeOk then
    ([.closeAgentConn, .mkdirSnapDir, .pauseVMEv, .removeOldArtifacts,
      .createSnapshotEv, .materializeDiskEv, .writeMetaTmp, .renameMeta,
      .resumeVMEv, .resumeVMEv], some "resume vm after snapshot")
  else
    ([.closeAgentConn, .mkdirSnapDir, .pauseVMEv, .removeOldArtifacts,
      .createSnapshotEv, .materializeDiskEv, .writeMetaTmp, .renameMeta,
      .resumeVMEv], none)

/-- C8 counterexample: on the successful path the metadata is written and
renamed into place before the VM is resumed, so the claimed order (resume
the VM, then write the metadata) is false. -/
theorem createUserSnapshot_meta_before_resume :
    ¬ ((createUserSnapshotFromSandbox true true true true true true
        true).1.indexOf SnapEv.resumeVMEv <
       (createUserSnapshotFromSandbox true true true true true true
        true).1.indexOf SnapEv.writeMetaTmp) := by
  decide

/-- C8 amended: user snapshot creation first closes any persistent agent
connection, then pauses the VM, creates the full snapshot, materializes
the disk artifact, writes the metadata atomically via temp-file-and-rename,
and then resumes the VM; and on every failure after a successful pause a
resume of the VM is attempted before the error is returned. -/
theorem createUserSnapshot_flow_contract
    (mkdirOk pauseOk createOk materializeOk writeTmpOk renameOk resumeOk : Bool) :
    ((createUserSnapshotFromSandbox true true true true true true true).1 =
      [.closeAgentConn, .mkdirSnapDir, .pauseVMEv, .removeOldArtifacts,
       .createSnapshotEv, .materializeDiskEv, .writeMetaTmp, .renameMeta,
       .resumeVMEv]) ∧
    (mkdirOk = true → pauseOk = true →
      (createUserSnapshotFromSandbox mkdirOk pauseOk createOk materializeOk
        writeTmpOk renameOk resumeOk).2 ≠ none →
      SnapEv.resumeVMEv ∈ (createUserSnapshotFromSandbox mkdirOk pauseOk
        createOk materializeOk writeTmpOk renameOk resumeOk).1) := by
  constructor
  · rfl
  · intro hm hp _
    subst hm
    subst hp
    cases createOk <;> cases materializeOk <;> cases writeTmpOk <;>
      cases renameOk <;> cases resumeOk <;> simp_all [createUserSnapshotFromSandbox]

/-- Witness for C8 amended: a failure while materializing the snapshot
disk (after the pause) leads to a resume attempt before the error is
returned. -/
theorem createUserSnapshot_flow_contract_witness :
    SnapEv.resumeVMEv ∈
      (createUserSnapshotFromSandbox true true true false true true true).1 ∧
    (createUserSnapshotFromSandbox true true true false true true true).2 =
      some "persist snapshot disk" := by
  have h := (createUserSnapshot_flow_contract true true true false true true
    true).2 rfl rfl (by decide)
  exact ⟨h, by decide⟩

end Manta
